import Mathlib

/-!
Verification of the Robotiq C-Model gripper action controller
(`cmodel_action_controller.py`) against its natural-language specification.

The controller's arithmetic is embedded shallowly over ℚ: Python floats
become rationals, `np.clip` becomes `clip`, Python `int()` (truncation
toward zero) becomes `pyInt`, and the ROS polling loops become fuel-indexed
recursions over explicit streams of observed statuses, cancellation flags
and clock readings.
-/

namespace Robotiq

/-- Device status registers as delivered on the status topic
(`robotiq_msgs/CModelStatus`); all fields default to zero as in a freshly
constructed ROS message (`self._status = CModelStatus()`). -/
structure CModelStatus where
  gACT : ℕ := 0
  gGTO : ℕ := 0
  gSTA : ℕ := 0
  gOBJ : ℕ := 0
  gFLT : ℕ := 0
  gPR : ℕ := 0
  gPO : ℕ := 0
  gCU : ℕ := 0
deriving DecidableEq

/-- Command registers published on the command topic
(`robotiq_msgs/CModelCommand`). -/
structure CModelCommand where
  rACT : ℤ := 0
  rGTO : ℤ := 0
  rATR : ℤ := 0
  rPR : ℤ := 0
  rSP : ℤ := 0
  rFR : ℤ := 0
deriving DecidableEq

/-- Calibration constants read once at startup (`read_parameter` calls in
`__init__`). -/
structure Calibration where
  min_gap_counts : ℚ
  counts_to_meters : ℚ
  min_gap : ℚ
  max_gap : ℚ
  min_speed : ℚ
  max_speed : ℚ
  min_force : ℚ
  max_force : ℚ
deriving DecidableEq

/-- The default calibration from the source (`min_gap_counts=230.`,
`counts_to_meters=0.8`, `min_gap=0.0`, `max_gap=0.085`, `min_speed=0.013`,
`max_speed=0.1`, `min_force=40.0`, `max_force=100.0`). -/
def defaultCalibration : Calibration :=
  { min_gap_counts := 230
    counts_to_meters := 4/5
    min_gap := 0
    max_gap := 17/200
    min_speed := 13/1000
    max_speed := 1/10
    min_force := 40
    max_force := 100 }

/-- `np.clip(x, lo, hi)`, which numpy documents as
`minimum(maximum(x, lo), hi)`. -/
def clip (x lo hi : ℚ) : ℚ := min (max x lo) hi

/-- Python `int()` applied to a float: truncation toward zero. -/
def pyInt (q : ℚ) : ℤ := if 0 ≤ q then ⌊q⌋ else ⌈q⌉

/-- Register-to-metres map from `_get_position` (line 252):
`np.clip((max_gap - min_gap)/(-min_gap_counts)*(count - min_gap_counts),
min_gap, max_gap)`. -/
def countsToPosition (c : Calibration) (count : ℚ) : ℚ :=
  clip ((c.max_gap - c.min_gap) / (-c.min_gap_counts) * (count - c.min_gap_counts))
    c.min_gap c.max_gap

/-- `_get_position`: apply `countsToPosition` to the stored status's `gPO`
register. -/
def _get_position (c : Calibration) (st : CModelStatus) : ℚ :=
  countsToPosition c (st.gPO : ℚ)

/-- Position register computation of `_goto_position` (line 268):
`int(np.clip((-min_gap_counts)/(max_gap - min_gap)*(pos - min_gap)
+ min_gap_counts, 0, min_gap_counts))`. -/
def positionToCounts (c : Calibration) (pos : ℚ) : ℤ :=
  pyInt (clip ((-c.min_gap_counts) / (c.max_gap - c.min_gap) * (pos - c.min_gap) + c.min_gap_counts)
    0 c.min_gap_counts)

/-- Speed register computation of `_goto_position` (line 269). -/
def velocityToCounts (c : Calibration) (vel : ℚ) : ℤ :=
  pyInt (clip (255 / (c.max_speed - c.min_speed) * (vel - c.min_speed)) 0 255)

/-- Force register computation of `_goto_position` (line 270). -/
def forceToCounts (c : Calibration) (force : ℚ) : ℤ :=
  pyInt (clip (255 / (c.max_force - c.min_force) * (force - c.min_force)) 0 255)

/-- The full command assembled and published by `_goto_position`. -/
def gotoCommand (c : Calibration) (pos vel force : ℚ) : CModelCommand :=
  { rACT := 1
    rGTO := 1
    rATR := 0
    rPR := positionToCounts c pos
    rSP := velocityToCounts c vel
    rFR := forceToCounts c force }

/-- `_ready`: `gSTA == 3 and gACT == 1`. -/
def _ready (st : CModelStatus) : Bool := st.gSTA == 3 && st.gACT == 1

/-- `_stalled`: `gOBJ == 1 or gOBJ == 2`. -/
def _stalled (st : CModelStatus) : Bool := st.gOBJ == 1 || st.gOBJ == 2

/-- `_moving`: `gGTO == 1 and gOBJ == 0`. -/
def _moving (st : CModelStatus) : Bool := st.gGTO == 1 && st.gOBJ == 0

/-- `_reached_goal(goal, tol=0.003)`: `abs(goal - _get_position()) < tol`. -/
def _reached_goal (c : Calibration) (st : CModelStatus) (goal : ℚ) : Bool :=
  decide (|goal - _get_position c st| < 3/1000)

/-- Round-to-nearest variant of the position register map, modelling the
spec's words `rounded to nearest integer` for comparison with the source's
truncating `positionToCounts`. -/
def positionToCountsSpecRounded (c : Calibration) (pos : ℚ) : ℤ :=
  round (clip ((-c.min_gap_counts) / (c.max_gap - c.min_gap) * (pos - c.min_gap) + c.min_gap_counts)
    0 c.min_gap_counts)

/-- The literal `1e-8` added to `dt` in `_status_cb` (line 75). -/
def epsDenom : ℚ := 1/100000000

/-- The mutable monitor state of the controller: `last_position`,
`last_time` and the stored status snapshot `self._status`. -/
structure MonitorState where
  last_position : ℚ
  last_time : ℚ
  status : CModelStatus
deriving DecidableEq

/-- The joint-state sample published by `_status_cb` (position, velocity,
effort fields of the `JointState` message). -/
structure JsSample where
  position : ℚ
  velocity : ℚ
  effort : ℚ
deriving DecidableEq

/-- The `CModelCommandFeedback` message published by `_status_cb`. -/
structure GripperFeedback where
  activated : Bool
  position : ℚ
  velocity : ℚ
  stalled : Bool
deriving DecidableEq

/-- `_status_cb(msg)` evaluated at clock reading `now`
(= `rospy.get_time()`): computes `current_position =
counts_to_meters * self._status.gPO / min_gap_counts` from the PREVIOUS
stored status, `current_velocity = (current_position - last_position) /
(dt + 1e-8)`, replaces the stored status with `msg`, publishes the joint
sample and the feedback (the feedback reads the NEW status), and updates
the single-slot memory. -/
def status_cb (c : Calibration) (s : MonitorState) (msg : CModelStatus) (now : ℚ) :
    MonitorState × JsSample × GripperFeedback :=
  let dt := now - s.last_time
  let current_position := c.counts_to_meters * (s.status.gPO : ℚ) / c.min_gap_counts
  let current_velocity := (current_position - s.last_position) / (dt + epsDenom)
  ({ last_position := current_position, last_time := now, status := msg },
   { position := current_position, velocity := current_velocity, effort := 0 },
   { activated := _ready msg
     position := _get_position c msg
     velocity := current_velocity
     stalled := _stalled msg })

/-- Position estimator as the spec describes it: convert the incoming
sample's raw position register through `countsToPosition`. -/
def onStatusSpecPos (c : Calibration) (msg : CModelStatus) : ℚ :=
  countsToPosition c (msg.gPO : ℚ)

/-- Velocity estimator as the spec describes it:
`(newPosition - lastPosition) / max(now - lastTime, eps)`. -/
def onStatusSpecVel (c : Calibration) (eps : ℚ) (s : MonitorState) (msg : CModelStatus)
    (now : ℚ) : ℚ :=
  (onStatusSpecPos c msg - s.last_position) / max (now - s.last_time) eps

/-- The activation command built by `_activate` and `_silent_activate`:
`rACT=1, rGTO=1, rSP=255, rFR=150` (all other registers zero). -/
def activationCommand : CModelCommand :=
  { rACT := 1, rGTO := 1, rATR := 0, rPR := 0, rSP := 255, rFR := 150 }

/-- The retry loop of `_activate(timeout)`, driven by the streams of
readiness observations, shutdown observations and clock offsets
(`times k` = `rospy.get_time() - start_time` at iteration `k`; the code
sleeps 0.1 s per iteration).  Returns the boolean result together with the
list of activation commands published, or `none` when `fuel` runs out
before the loop exits. -/
def activateAux (ready shutdown : ℕ → Bool) (times : ℕ → ℚ) (timeout : ℚ) :
    ℕ → ℕ → Option (Bool × List CModelCommand)
  | 0, _ => none
  | fuel+1, k =>
    if ready k then some (true, [])
    else if shutdown k then some (false, [])
    else if timeout < times k then some (false, [])
    else (activateAux ready shutdown times timeout fuel (k+1)).map
      fun r => (r.1, activationCommand :: r.2)

/-- `_activate` entered at iteration 0. -/
def activateRun (ready shutdown : ℕ → Bool) (times : ℕ → ℚ) (timeout : ℚ) (fuel : ℕ) :
    Option (Bool × List CModelCommand) :=
  activateAux ready shutdown times timeout fuel 0

/-- `_silent_activate` has no `return` statement, so its Python value is
`None`. -/
def silentActivateResult : Option Bool := none

/-- Python truthiness of an optional boolean: `None` is falsy. -/
def pyTruthy : Option Bool → Bool
  | none => false
  | some b => b

/-- The terminal report of one goal execution: `set_preempted`, a bare
return with no terminal call (the `_execute_cb` activation-failure path),
or `set_succeeded` with a result record. -/
structure GripperResult where
  position : ℚ
  stalled : Bool
  reached_goal : Bool
deriving DecidableEq

inductive GoalOutcome where
  | preempted
  | noResult
  | succeeded (r : GripperResult)
deriving DecidableEq

/-- The `self._status.gOBJ = 0` write performed by all three goal
callbacks (lines 124, 169, 196). -/
def zeroGOBJ (st : CModelStatus) : CModelStatus := { st with gOBJ := 0 }

/-- Environment of one polling loop: `status k` is the stored status
observed at the k-th top-of-loop check (the status seen by the
end-of-iteration stall check of iteration k is `status (k+1)`, the value
after that iteration's sleep), `cancel k` is the shutdown-or-preempt flag
observed in iteration k, and `time k` is `rospy.get_rostime() -
command_sent_time` at the end-of-iteration check of iteration k. -/
structure Env where
  status : ℕ → CModelStatus
  cancel : ℕ → Bool
  time : ℕ → ℚ

inductive LoopExit where
  | reached
  | canceled
  | stalledBreak
deriving DecidableEq

/-- The polling loop shared by `_execute_cb` and
`_simple_gripper_action_cb`: while the goal is not reached, publish the
motion command, bail out on shutdown/preempt, publish feedback, sleep,
and break once `time_since_command > grace` while the device reports a
stall.  Returns the exit kind together with the index of the status
snapshot current at exit, or `none` when `fuel` runs out. -/
def execLoopAux (c : Calibration) (pos grace : ℚ) (env : Env) :
    ℕ → ℕ → Option (LoopExit × ℕ)
  | 0, _ => none
  | fuel+1, k =>
    if _reached_goal c (env.status k) pos then some (.reached, k)
    else if env.cancel k then some (.canceled, k)
    else if grace < env.time k ∧ _stalled (env.status (k+1)) = true then
      some (.stalledBreak, k+1)
    else execLoopAux c pos grace env fuel (k+1)

/-- Stall grace period of `_execute_cb`: `rospy.Duration(0.5)`. -/
def oldStallGrace : ℚ := 1/2

/-- Stall grace period of `_simple_gripper_action_cb`:
`rospy.Duration(1.0)`. -/
def simpleStallGrace : ℚ := 1

/-- The result record assembled after the loop from the status snapshot at
index `k`. -/
def resultAt (c : Calibration) (pos : ℚ) (env : Env) (k : ℕ) : GripperResult :=
  { position := _get_position c (env.status k)
    stalled := _stalled (env.status k)
    reached_goal := _reached_goal c (env.status k) pos }

/-- Target opening width computed by `_simple_gripper_action_cb`
(lines 115-119): `target_gPO = goal.command.position * min_gap_counts /
counts_to_meters`, mapped back through the count-to-gap affine map and
clipped twice. -/
def simpleTarget (c : Calibration) (goalPos : ℚ) : ℚ :=
  let target_gPO := goalPos * c.min_gap_counts / c.counts_to_meters
  let pos := clip ((c.max_gap - c.min_gap) / (-c.min_gap_counts) * (target_gPO - c.min_gap_counts))
    c.min_gap c.max_gap
  clip pos c.min_gap c.max_gap

/-- Body of `_simple_gripper_action_cb` after the readiness guard: the
early preempt check, then the polling loop with grace `simpleStallGrace`,
hard-coded `velocity = min_speed` and `force = max_force`, ending in
`set_succeeded` (also after a stall break) or `set_preempted` on
cancellation.  `pre` is the list of commands already published by the
guard. -/
def simpleMain (c : Calibration) (goalPos : ℚ) (p0 : Bool) (env : Env) (fuel : ℕ)
    (pre : List CModelCommand) : Option (GoalOutcome × List CModelCommand) :=
  if p0 then some (.preempted, pre)
  else
    let position := simpleTarget c goalPos
    let velocity := c.min_speed
    let force := c.max_force
    match execLoopAux c position simpleStallGrace env fuel 0 with
    | none => none
    | some (.reached, k) =>
        some (.succeeded (resultAt c position env k),
          pre ++ List.replicate k (gotoCommand c position velocity force))
    | some (.canceled, k) =>
        some (.preempted,
          pre ++ List.replicate (k+1) (gotoCommand c position velocity force))
    | some (.stalledBreak, k) =>
        some (.succeeded (resultAt c position env k),
          pre ++ List.replicate k (gotoCommand c position velocity force))

/-- `_simple_gripper_action_cb`: when the gripper is not ready it calls
`_silent_activate()` (which publishes one activation command and returns
`None`) and preempts if the returned value is falsy; otherwise it runs the
main body. -/
def simple_gripper_action_cb (c : Calibration) (st : CModelStatus) (goalPos : ℚ)
    (p0 : Bool) (env : Env) (fuel : ℕ) : Option (GoalOutcome × List CModelCommand) :=
  if _ready st then simpleMain c goalPos p0 env fuel []
  else if pyTruthy silentActivateResult then simpleMain c goalPos p0 env fuel [activationCommand]
  else some (.preempted, [activationCommand])

/-- A `CModelCommandGoal`: target position, velocity and force. -/
structure Goal where
  position : ℚ
  velocity : ℚ
  force : ℚ
deriving DecidableEq

/-- Body of `_execute_no_delay_cb` after the readiness guard: preempt
check, clip the goal, zero `gOBJ` in the stored status, publish one motion
command, and immediately `set_succeeded` with a result read from the
(just-mutated) stored status.  Returns the stored status after the
callback, the outcome, and the published commands. -/
def noDelayMain (c : Calibration) (st : CModelStatus) (g : Goal) (p0 : Bool)
    (pre : List CModelCommand) : CModelStatus × GoalOutcome × List CModelCommand :=
  if p0 then (st, .preempted, pre)
  else
    let position := clip g.position c.min_gap c.max_gap
    let velocity := clip g.velocity c.min_speed c.max_speed
    let force := clip g.force c.min_force c.max_force
    let st1 := zeroGOBJ st
    (st1,
     .succeeded { position := _get_position c st1
                  stalled := _stalled st1
                  reached_goal := _reached_goal c st1 position },
     pre ++ [gotoCommand c position velocity force])

/-- `_execute_no_delay_cb`: readiness guard with `_silent_activate`, then
the no-loop body. -/
def execute_no_delay_cb (c : Calibration) (st : CModelStatus) (g : Goal) (p0 : Bool) :
    CModelStatus × GoalOutcome × List CModelCommand :=
  if _ready st then noDelayMain c st g p0 []
  else if pyTruthy silentActivateResult then noDelayMain c st g p0 [activationCommand]
  else (st, .preempted, [activationCommand])

/-- `_execute_cb`: when not ready it runs the blocking `_activate`
(summarised by `activationOk`; its published activation commands are not
included in the returned list) and on failure performs a bare `return`
with no terminal call (`noResult`); otherwise preempt check, clip the
goal, and the polling loop with grace `oldStallGrace`. -/
def execute_cb (c : Calibration) (st : CModelStatus) (g : Goal) (activationOk : Bool)
    (p0 : Bool) (env : Env) (fuel : ℕ) : Option (GoalOutcome × List CModelCommand) :=
  if _ready st = false ∧ activationOk = false then some (.noResult, [])
  else if p0 then some (.preempted, [])
  else
    let position := clip g.position c.min_gap c.max_gap
    let velocity := clip g.velocity c.min_speed c.max_speed
    let force := clip g.force c.min_force c.max_force
    match execLoopAux c position oldStallGrace env fuel 0 with
    | none => none
    | some (.reached, k) =>
        some (.succeeded (resultAt c position env k),
          List.replicate k (gotoCommand c position velocity force))
    | some (.canceled, k) =>
        some (.preempted,
          List.replicate (k+1) (gotoCommand c position velocity force))
    | some (.stalledBreak, k) =>
        some (.succeeded (resultAt c position env k),
          List.replicate k (gotoCommand c position velocity force))

/-- Whether `__init__` reaches the `self._server.start()` calls:
`working = True`; if the `activate` flag is set and the device is not
ready, `working = self._activate()`; if not `working`, `__init__` returns
before starting any action server. -/
def initStarted (activateFlag ready0 activationOk : Bool) : Bool :=
  if activateFlag && !ready0 then activationOk else true

/-- Calibration with a non-zero `min_gap`, satisfying the spec's
calibration invariant (`maxGap > minGap`, `minGapCounts > 0`). -/
def c4Calib : Calibration := { defaultCalibration with min_gap := 1/20 }

/-- A ready, far-from-goal, non-stalled status. -/
def farStatus : CModelStatus := { gACT := 1, gSTA := 3, gOBJ := 0, gPO := 0 }

/-- A ready, far-from-goal, stalled status (`gOBJ = 1`). -/
def stallStatus : CModelStatus := { gACT := 1, gSTA := 3, gOBJ := 1, gPO := 0 }

/-- Concrete loop environment: not stalled at the first observation,
stalled from the second on, never cancelled, one second on the clock. -/
def stallEnv : Env :=
  { status := fun k => if k = 0 then farStatus else stallStatus
    cancel := fun _ => false
    time := fun _ => 1 }

/-- Concrete loop environment in which the goal is reached immediately. -/
def reachEnv : Env :=
  { status := fun _ => farStatus
    cancel := fun _ => false
    time := fun _ => 0 }

/-- Concrete loop environment in which preemption is requested at every
tick. -/
def cancelEnv : Env :=
  { status := fun _ => farStatus
    cancel := fun _ => true
    time := fun _ => 0 }

/-! ## Helper lemmas -/

theorem clip_eq_of_le {x lo hi : ℚ} (h1 : lo ≤ x) (h2 : x ≤ hi) : clip x lo hi = x := by
  unfold clip
  rw [max_eq_left h1, min_eq_left h2]

theorem le_clip {lo hi : ℚ} (x : ℚ) (h : lo ≤ hi) : lo ≤ clip x lo hi := by
  unfold clip
  exact le_min (le_max_right x lo) h

theorem clip_le_hi (x lo hi : ℚ) : clip x lo hi ≤ hi := min_le_right _ _

theorem clip_mono {x y : ℚ} (lo hi : ℚ) (h : x ≤ y) : clip x lo hi ≤ clip y lo hi := by
  unfold clip
  exact min_le_min (max_le_max h le_rfl) le_rfl

theorem pyInt_of_nonneg {q : ℚ} (h : 0 ≤ q) : pyInt q = ⌊q⌋ := if_pos h

theorem activateAux_ready_of (ready shutdown : ℕ → Bool) (times : ℕ → ℚ) (timeout : ℚ) :
    ∀ (n k fuel : ℕ),
      (∀ j, j < n → ready (k+j) = false ∧ shutdown (k+j) = false ∧ times (k+j) ≤ timeout) →
      ready (k+n) = true → n < fuel →
      activateAux ready shutdown times timeout fuel k =
        some (true, List.replicate n activationCommand) := by
  intro n
  induction n with
  | zero =>
    intro k fuel _ hr hf
    match fuel, hf with
    | f+1, _ =>
      rw [Nat.add_zero] at hr
      simp [activateAux, hr]
  | succ n ih =>
    intro k fuel h hr hf
    match fuel, hf with
    | f+1, hf =>
      have h0 := h 0 (Nat.succ_pos n)
      rw [Nat.add_zero] at h0
      have hrec := ih (k+1) f
        (fun j hj => by
          have := h (j+1) (by omega)
          rwa [show k + (j+1) = k + 1 + j by omega] at this)
        (by rwa [show k + (n+1) = k + 1 + n by omega] at hr)
        (by omega)
      simp [activateAux, h0.1, h0.2.1, not_lt.mpr h0.2.2, hrec, List.replicate_succ]

theorem activateAux_timeout_of (ready shutdown : ℕ → Bool) (times : ℕ → ℚ) (timeout : ℚ) :
    ∀ (n k fuel : ℕ),
      (∀ j, j ≤ n → ready (k+j) = false ∧ shutdown (k+j) = false) →
      (∀ j, j < n → times (k+j) ≤ timeout) →
      timeout < times (k+n) → n < fuel →
      activateAux ready shutdown times timeout fuel k =
        some (false, List.replicate n activationCommand) := by
  intro n
  induction n with
  | zero =>
    intro k fuel h _ hto hf
    match fuel, hf with
    | f+1, _ =>
      have h0 := h 0 (Nat.zero_le 0)
      rw [Nat.add_zero] at h0
      rw [Nat.add_zero] at hto
      simp [activateAux, h0.1, h0.2, hto]
  | succ n ih =>
    intro k fuel h ht hto hf
    match fuel, hf with
    | f+1, hf =>
      have h0 := h 0 (Nat.zero_le _)
      rw [Nat.add_zero] at h0
      have ht0 := ht 0 (Nat.succ_pos n)
      rw [Nat.add_zero] at ht0
      have hrec := ih (k+1) f
        (fun j hj => by
          have := h (j+1) (by omega)
          rwa [show k + (j+1) = k + 1 + j by omega] at this)
        (fun j hj => by
          have := ht (j+1) (by omega)
          rwa [show k + (j+1) = k + 1 + j by omega] at this)
        (by rwa [show k + (n+1) = k + 1 + n by omega] at hto)
        (by omega)
      simp [activateAux, h0.1, h0.2, not_lt.mpr ht0, hrec, List.replicate_succ]

theorem execLoopAux_break_elim (c : Calibration) (pos grace : ℚ) (env : Env) :
    ∀ (fuel k j : ℕ), execLoopAux c pos grace env fuel k = some (.stalledBreak, j) →
      ∃ i, j = i + 1 ∧ grace < env.time i ∧ _stalled (env.status (i+1)) = true := by
  intro fuel
  induction fuel with
  | zero =>
    intro k j h
    simp [execLoopAux] at h
  | succ f ih =>
    intro k j h
    simp only [execLoopAux] at h
    split_ifs at h with h1 h2 h3
    · simp at h
    · simp at h
    · simp only [Option.some.injEq, Prod.mk.injEq] at h
      exact ⟨k, h.2.symm, h3.1, h3.2⟩
    · exact ih (k+1) j h

theorem execLoopAux_break_intro (c : Calibration) (pos grace : ℚ) (env : Env) :
    ∀ (d k fuel : ℕ),
      (∀ m, k ≤ m → m ≤ k + d → _reached_goal c (env.status m) pos = false) →
      (∀ m, k ≤ m → m ≤ k + d → env.cancel m = false) →
      (∀ m, k ≤ m → m < k + d → ¬(grace < env.time m ∧ _stalled (env.status (m+1)) = true)) →
      (grace < env.time (k+d) ∧ _stalled (env.status (k+d+1)) = true) → d < fuel →
      execLoopAux c pos grace env fuel k = some (.stalledBreak, (k+d)+1) := by
  intro d
  induction d with
  | zero =>
    intro k fuel hR hC _ hS hf
    match fuel, hf with
    | f+1, _ =>
      have hRk := hR k le_rfl (by omega)
      have hCk := hC k le_rfl (by omega)
      rw [Nat.add_zero] at hS ⊢
      simp [execLoopAux, hRk, hCk, hS.1, hS.2]
  | succ d ih =>
    intro k fuel hR hC hN hS hf
    match fuel, hf with
    | f+1, hf =>
      have hRk := hR k le_rfl (by omega)
      have hCk := hC k le_rfl (by omega)
      have hNk := hN k le_rfl (by omega)
      have hrec := ih (k+1) f
        (fun m h1 h2 => hR m (by omega) (by omega))
        (fun m h1 h2 => hC m (by omega) (by omega))
        (fun m h1 h2 => hN m (by omega) (by omega))
        (by rwa [show k + 1 + d = k + (d+1) by omega])
        (by omega)
      rw [show k + (d+1) = k + 1 + d by omega]
      simp [execLoopAux, hRk, hCk, hNk, hrec]

/-! ## Claims -/

/-- Claim C1 counterexample: `_status_cb` does not compute the new
position by converting the incoming sample's position register through
`countsToPosition` (with the default calibration and a sample whose `gPO`
is 0 the code stores position 0 while `countsToPosition` gives 17/200),
and its velocity is not `(new - last) / max(now - lastTime, eps)` (at
`dt = 1` the code divides by `1 + 1e-8`). -/
theorem C1_counterexample :
    (status_cb defaultCalibration ⟨0, 0, { gPO := 0 }⟩ { gPO := 0 } 1).1.last_position ≠
      onStatusSpecPos defaultCalibration { gPO := 0 }
    ∧ (status_cb defaultCalibration ⟨0, 0, { gPO := 230 }⟩ { gPO := 230 } 1).2.1.velocity ≠
      onStatusSpecVel defaultCalibration epsDenom ⟨0, 0, { gPO := 230 }⟩ { gPO := 230 } 1 := by
  constructor
  · norm_num [status_cb, onStatusSpecPos, countsToPosition, clip, defaultCalibration,
      min_def, max_def]
  · norm_num [status_cb, onStatusSpecVel, onStatusSpecPos, countsToPosition, clip,
      defaultCalibration, epsDenom, min_def, max_def]

/-- Claim C1 (amended): for every incoming status sample, `_status_cb`
computes the new position from the PREVIOUS stored status's position
register as `counts_to_meters * gPO / min_gap_counts` (an unclamped
joint-angle scaling, not `countsToPosition`), computes velocity as
`(newPosition - lastPosition) / ((now - lastTime) + 1e-8)`, replaces the
stored status wholesale with the new sample, and updates the single-slot
last-position/last-time memory with the values derived from the previous
sample. -/
theorem C1_amended (c : Calibration) (s : MonitorState) (msg : CModelStatus) (now : ℚ) :
    (status_cb c s msg now).1.last_position =
      c.counts_to_meters * (s.status.gPO : ℚ) / c.min_gap_counts
    ∧ (status_cb c s msg now).1.last_time = now
    ∧ (status_cb c s msg now).1.status = msg
    ∧ (status_cb c s msg now).2.1.position = (status_cb c s msg now).1.last_position
    ∧ (status_cb c s msg now).2.1.velocity =
        ((status_cb c s msg now).1.last_position - s.last_position) /
          ((now - s.last_time) + epsDenom)
    ∧ (status_cb c s msg now).2.2.position = countsToPosition c (msg.gPO : ℚ)
    ∧ (status_cb c s msg now).2.2.velocity = (status_cb c s msg now).2.1.velocity :=
  ⟨rfl, rfl, rfl, rfl, rfl, rfl, rfl⟩

/-- Claim C2 counterexample: the goal callback mutates the stored status:
`_execute_no_delay_cb` on a ready status with `gOBJ = 1` leaves the
stored status with `gOBJ = 0`. -/
theorem C2_counterexample :
    (execute_no_delay_cb defaultCalibration stallStatus ⟨0, 0, 0⟩ false).1.gOBJ ≠
      stallStatus.gOBJ := by
  decide

/-- Claim C2 (amended): each goal callback overwrites the stored status's
object-detection code `gOBJ` with 0 before commanding motion; every other
field of the stored status is preserved by that write, and the status
monitor replaces the stored status wholesale with each new sample. -/
theorem C2_amended (c : Calibration) (st : CModelStatus) (g : Goal) (p0 : Bool)
    (s : MonitorState) (msg : CModelStatus) (now : ℚ) :
    ((zeroGOBJ st).gACT = st.gACT ∧ (zeroGOBJ st).gGTO = st.gGTO
      ∧ (zeroGOBJ st).gSTA = st.gSTA ∧ (zeroGOBJ st).gFLT = st.gFLT
      ∧ (zeroGOBJ st).gPR = st.gPR ∧ (zeroGOBJ st).gPO = st.gPO
      ∧ (zeroGOBJ st).gCU = st.gCU ∧ (zeroGOBJ st).gOBJ = 0)
    ∧ (status_cb c s msg now).1.status = msg
    ∧ (execute_no_delay_cb c st g p0).1 =
        (if _ready st then (if p0 then st else zeroGOBJ st) else st) := by
  refine ⟨⟨rfl, rfl, rfl, rfl, rfl, rfl, rfl, rfl⟩, rfl, ?_⟩
  unfold execute_no_delay_cb noDelayMain
  cases h : _ready st <;> cases p0 <;>
    simp [pyTruthy, silentActivateResult]

/-- Claim C3 counterexample: the position register map truncates toward
zero rather than rounding to the nearest integer: at position 1/2000 m the
code produces register 228 while round-to-nearest gives 229. -/
theorem C3_counterexample :
    positionToCounts defaultCalibration (1/2000) ≠
      positionToCountsSpecRounded defaultCalibration (1/2000) := by
  norm_num [positionToCounts, positionToCountsSpecRounded, pyInt, clip, defaultCalibration,
    min_def, max_def, round_eq]

/-- Claim C3 (amended): `positionToCounts` computes
`clamp((-minGapCounts/(maxGap-minGap))*(pos-minGap)+minGapCounts, 0,
minGapCounts)` truncated toward zero (equivalently its floor, since the
clamped value is nonnegative); with the default calibration
`positionToCounts 0 = 230` and `positionToCounts 0.085 = 0`. -/
theorem C3_amended (c : Calibration) (h : 0 ≤ c.min_gap_counts) :
    (∀ p : ℚ, positionToCounts c p =
      ⌊clip ((-c.min_gap_counts) / (c.max_gap - c.min_gap) * (p - c.min_gap) + c.min_gap_counts)
        0 c.min_gap_counts⌋)
    ∧ positionToCounts defaultCalibration 0 = 230
    ∧ positionToCounts defaultCalibration (17/200) = 0 := by
  refine ⟨fun p => ?_,
    by norm_num [positionToCounts, pyInt, clip, defaultCalibration, min_def, max_def],
    by norm_num [positionToCounts, pyInt, clip, defaultCalibration, min_def, max_def]⟩
  unfold positionToCounts
  exact pyInt_of_nonneg (le_clip _ h)

/-- Witness for C3 at the default calibration and position 1/2000 m. -/
theorem C3_witness :
    positionToCounts defaultCalibration (1/2000) =
      ⌊clip ((-defaultCalibration.min_gap_counts) /
          (defaultCalibration.max_gap - defaultCalibration.min_gap) *
          ((1/2000) - defaultCalibration.min_gap) + defaultCalibration.min_gap_counts)
        0 defaultCalibration.min_gap_counts⌋ :=
  (C3_amended defaultCalibration (by norm_num [defaultCalibration])).1 (1/2000)

/-- Claim C4 counterexample: the round-trip bound fails for calibrations
with a non-zero `min_gap` (allowed by the spec's calibration invariant),
because `countsToPosition` omits the `+ min_gap` offset of the true
inverse: with `min_gap = 1/20` and `p = 3/50`, the round trip lands on
1/20, an error of 1/100, far above one count's worth 7/46000. -/
theorem C4_counterexample :
    (c4Calib.min_gap < c4Calib.max_gap ∧ 0 < c4Calib.min_gap_counts)
    ∧ c4Calib.min_gap ≤ 3/50 ∧ (3/50 : ℚ) ≤ c4Calib.max_gap
    ∧ ¬ (|countsToPosition c4Calib ((positionToCounts c4Calib (3/50) : ℤ) : ℚ) - 3/50| ≤
        (c4Calib.max_gap - c4Calib.min_gap) / c4Calib.min_gap_counts) := by
  norm_num [countsToPosition, positionToCounts, pyInt, clip, c4Calib, defaultCalibration,
    min_def, max_def, abs]

/-- Claim C4 (amended): for calibrations with `min_gap = 0` (as in the
shipped default), for every position `p` in `[min_gap, max_gap]` the round
trip `countsToPosition (positionToCounts p)` differs from `p` by at most
one register count's worth of quantization error,
`(max_gap - min_gap) / min_gap_counts`. -/
theorem C4_amended (c : Calibration) (hm : c.min_gap = 0) (hN : 0 < c.min_gap_counts)
    (hG : c.min_gap < c.max_gap) (p : ℚ) (hp1 : c.min_gap ≤ p) (hp2 : p ≤ c.max_gap) :
    |countsToPosition c ((positionToCounts c p : ℤ) : ℚ) - p| ≤
      (c.max_gap - c.min_gap) / c.min_gap_counts := by
  obtain ⟨N, cm, m, G, s1, s2, f1, f2⟩ := c
  simp only at hm hN hG hp1 hp2 ⊢
  subst hm
  unfold countsToPosition positionToCounts
  simp only [sub_zero] at *
  have hGpos : 0 < G := hG
  have hN' : N ≠ 0 := ne_of_gt hN
  have hG' : G ≠ 0 := ne_of_gt hGpos
  set t : ℚ := (-N) / G * p + N with ht
  have hdivneg : (-N) / G ≤ 0 :=
    div_nonpos_of_nonpos_of_nonneg (by linarith) (le_of_lt hGpos)
  have ht0 : 0 ≤ t := by
    have h1 : (-N) / G * G ≤ (-N) / G * p := mul_le_mul_of_nonpos_left hp2 hdivneg
    have h2 : (-N) / G * G = -N := by field_simp
    rw [ht]; linarith
  have htN : t ≤ N := by
    have h1 : (-N) / G * p ≤ (-N) / G * 0 := mul_le_mul_of_nonpos_left hp1 hdivneg
    rw [mul_zero] at h1
    rw [ht]; linarith
  rw [clip_eq_of_le ht0 htN, pyInt_of_nonneg ht0]
  have hf_le : ((⌊t⌋ : ℤ) : ℚ) ≤ t := Int.floor_le t
  have hf_gt : t - 1 < ((⌊t⌋ : ℤ) : ℚ) := Int.sub_one_lt_floor t
  have hf0 : (0 : ℚ) ≤ ((⌊t⌋ : ℤ) : ℚ) := by
    exact_mod_cast Int.floor_nonneg.mpr ht0
  have hfN : ((⌊t⌋ : ℤ) : ℚ) ≤ N := le_trans hf_le htN
  have hinner : G / -N * (((⌊t⌋ : ℤ) : ℚ) - N) = G * (N - ((⌊t⌋ : ℤ) : ℚ)) / N := by
    rw [div_mul_eq_mul_div, div_eq_div_iff (neg_ne_zero.mpr hN') hN']
    ring
  rw [hinner]
  have hr0 : 0 ≤ G * (N - ((⌊t⌋ : ℤ) : ℚ)) / N :=
    div_nonneg (mul_nonneg (le_of_lt hGpos) (by linarith)) (le_of_lt hN)
  have hrG : G * (N - ((⌊t⌋ : ℤ) : ℚ)) / N ≤ G := by
    rw [div_le_iff₀ hN]
    nlinarith
  rw [clip_eq_of_le hr0 hrG]
  have e1 : G * t = -(N * p) + G * N := by
    rw [ht]
    field_simp
    ring
  have key1 : p * N ≤ G * (N - ((⌊t⌋ : ℤ) : ℚ)) := by
    nlinarith [mul_le_mul_of_nonneg_left hf_le (le_of_lt hGpos)]
  have key2 : G * (N - ((⌊t⌋ : ℤ) : ℚ)) < p * N + G := by
    nlinarith [mul_le_mul_of_nonneg_left (le_of_lt hf_gt) (le_of_lt hGpos)]
  rw [abs_le]
  constructor
  · have hple : p ≤ G * (N - ((⌊t⌋ : ℤ) : ℚ)) / N := by
      rw [le_div_iff₀ hN]
      linarith
    have hpos : 0 ≤ G / N := div_nonneg (le_of_lt hGpos) (le_of_lt hN)
    linarith
  · have hlt : G * (N - ((⌊t⌋ : ℤ) : ℚ)) / N < p + G / N := by
      rw [div_lt_iff₀ hN]
      have he : (p + G / N) * N = p * N + G := by field_simp
      rw [he]
      exact key2
    linarith

/-- Witness for C4 at the default calibration and position 1/100 m. -/
theorem C4_witness :
    |countsToPosition defaultCalibration
        ((positionToCounts defaultCalibration (1/100) : ℤ) : ℚ) - 1/100| ≤
      (defaultCalibration.max_gap - defaultCalibration.min_gap) /
        defaultCalibration.min_gap_counts :=
  C4_amended defaultCalibration (by norm_num [defaultCalibration])
    (by norm_num [defaultCalibration]) (by norm_num [defaultCalibration]) (1/100)
    (by norm_num [defaultCalibration]) (by norm_num [defaultCalibration])

/-- Claim C5 counterexample: `positionToCounts` is not strictly
decreasing: positions 1/1000 m and 11/10000 m both map to register 227
with the default calibration. -/
theorem C5_counterexample :
    (1/1000 : ℚ) < 11/10000
    ∧ positionToCounts defaultCalibration (1/1000) =
        positionToCounts defaultCalibration (11/10000) := by
  constructor
  · norm_num
  · norm_num [positionToCounts, pyInt, clip, defaultCalibration, min_def, max_def]

/-- Claim C5 (amended): `positionToCounts` is antitone (monotonically
non-increasing): for `p1 ≤ p2` the register for `p2` is at most the
register for `p1`; strictness fails because of clamping and integer
truncation. -/
theorem C5_amended (c : Calibration) (hN : 0 < c.min_gap_counts)
    (hG : c.min_gap < c.max_gap) (p1 p2 : ℚ) (h : p1 ≤ p2) :
    positionToCounts c p2 ≤ positionToCounts c p1 := by
  unfold positionToCounts
  have hg : 0 < c.max_gap - c.min_gap := by linarith
  have hle0 : (-c.min_gap_counts) / (c.max_gap - c.min_gap) ≤ 0 :=
    div_nonpos_of_nonpos_of_nonneg (by linarith) (le_of_lt hg)
  have key : (-c.min_gap_counts) / (c.max_gap - c.min_gap) * (p2 - c.min_gap) ≤
      (-c.min_gap_counts) / (c.max_gap - c.min_gap) * (p1 - c.min_gap) :=
    mul_le_mul_of_nonpos_left (by linarith) hle0
  have hmono := clip_mono (x := (-c.min_gap_counts) / (c.max_gap - c.min_gap) * (p2 - c.min_gap) + c.min_gap_counts)
    (y := (-c.min_gap_counts) / (c.max_gap - c.min_gap) * (p1 - c.min_gap) + c.min_gap_counts)
    0 c.min_gap_counts (by linarith)
  rw [pyInt_of_nonneg (le_clip _ (le_of_lt hN)), pyInt_of_nonneg (le_clip _ (le_of_lt hN))]
  exact Int.floor_mono hmono

/-- Witness for C5 at the default calibration, positions 0 and 0.085 m. -/
theorem C5_witness :
    positionToCounts defaultCalibration (17/200) ≤ positionToCounts defaultCalibration 0 :=
  C5_amended defaultCalibration (by norm_num [defaultCalibration])
    (by norm_num [defaultCalibration]) 0 (17/200) (by norm_num)

/-- Claim C6: `_activate` returns true immediately, publishing no
command, when the device is already ready; when the status stream reports
ready at iteration n within the timeout it returns true after publishing
the activation command (`rACT=1, rGTO=1, rSP=255, rFR=150`) once per
completed retry iteration; when the stream never reports ready it returns
false at the first iteration whose elapsed time exceeds the timeout,
having published once per earlier iteration. -/
theorem C6_activate (ready shutdown : ℕ → Bool) (times : ℕ → ℚ) (timeout : ℚ) (fuel n : ℕ) :
    (ready 0 = true → 0 < fuel →
      activateRun ready shutdown times timeout fuel = some (true, []))
    ∧ ((∀ j, j < n → ready j = false ∧ shutdown j = false ∧ times j ≤ timeout) →
        ready n = true → n < fuel →
        activateRun ready shutdown times timeout fuel =
          some (true, List.replicate n activationCommand))
    ∧ ((∀ j, ready j = false ∧ shutdown j = false) →
        (∀ j, j < n → times j ≤ timeout) → timeout < times n → n < fuel →
        activateRun ready shutdown times timeout fuel =
          some (false, List.replicate n activationCommand))
    ∧ activationCommand.rACT = 1 ∧ activationCommand.rGTO = 1
    ∧ activationCommand.rSP = 255 ∧ activationCommand.rFR = 150 := by
  refine ⟨?_, ?_, ?_, rfl, rfl, rfl, rfl⟩
  · intro h0 hf
    have h := activateAux_ready_of ready shutdown times timeout 0 0 fuel
      (fun j hj => absurd hj (Nat.not_lt_zero j)) (by simpa using h0) hf
    simpa [activateRun] using h
  · intro h hr hf
    have h2 := activateAux_ready_of ready shutdown times timeout n 0 fuel
      (fun j hj => by simpa using h j hj) (by simpa using hr) hf
    simpa [activateRun] using h2
  · intro h ht hto hf
    have h2 := activateAux_timeout_of ready shutdown times timeout n 0 fuel
      (fun j _ => by simpa using h j) (fun j hj => by simpa using ht j hj)
      (by simpa using hto) hf
    simpa [activateRun] using h2

/-- Witness for C6: immediately ready; ready at iteration 3 of a
10 Hz-style clock against a 5 s timeout; never ready against a 0.5 s
timeout, failing at iteration 6. -/
theorem C6_witness :
    activateRun (fun k => k == 0) (fun _ => false) (fun k => (k : ℚ)/10) 5 10 = some (true, [])
    ∧ activateRun (fun k => k == 3) (fun _ => false) (fun k => (k : ℚ)/10) 5 10 =
        some (true, List.replicate 3 activationCommand)
    ∧ activateRun (fun _ => false) (fun _ => false) (fun k => (k : ℚ)/10) (1/2) 10 =
        some (false, List.replicate 6 activationCommand) :=
  ⟨(C6_activate (fun k => k == 0) (fun _ => false) (fun k => (k : ℚ)/10) 5 10 0).1
      rfl (by norm_num),
   (C6_activate (fun k => k == 3) (fun _ => false) (fun k => (k : ℚ)/10) 5 10 3).2.1
      (by
        intro j hj
        refine ⟨?_, rfl, ?_⟩
        · interval_cases j <;> rfl
        · interval_cases j <;> norm_num)
      rfl (by norm_num),
   (C6_activate (fun _ => false) (fun _ => false) (fun k => (k : ℚ)/10) (1/2) 10 6).2.2.1
      (fun j => ⟨rfl, rfl⟩)
      (by
        intro j hj
        interval_cases j <;> norm_num)
      (by norm_num) (by norm_num)⟩

/-- Claim C7: the polling loop exits via break exactly when the elapsed
time since the first command exceeds the grace period AND the device
reports stalled: every `stalledBreak` exit happens at an iteration whose
end-of-iteration check found `grace < elapsed` and a stalled status, and
conversely whenever the loop reaches an iteration satisfying both
conditions (no earlier exit having fired) it terminates there via break;
`_execute_cb` uses grace 0.5 s and `_simple_gripper_action_cb` uses
1.0 s. -/
theorem C7_stall_break (c : Calibration) (pos grace : ℚ) (env : Env) (fuel i j : ℕ) :
    (execLoopAux c pos grace env fuel 0 = some (.stalledBreak, j) →
      ∃ m, j = m + 1 ∧ grace < env.time m ∧ _stalled (env.status (m+1)) = true)
    ∧ ((∀ m, m ≤ i → _reached_goal c (env.status m) pos = false) →
       (∀ m, m ≤ i → env.cancel m = false) →
       (∀ m, m < i → ¬(grace < env.time m ∧ _stalled (env.status (m+1)) = true)) →
       grace < env.time i → _stalled (env.status (i+1)) = true → i < fuel →
       execLoopAux c pos grace env fuel 0 = some (.stalledBreak, i+1))
    ∧ oldStallGrace = 1/2 ∧ simpleStallGrace = 1 := by
  refine ⟨execLoopAux_break_elim c pos grace env fuel 0 j, ?_, rfl, rfl⟩
  intro hR hC hN h1 h2 hf
  have h := execLoopAux_break_intro c pos grace env i 0 fuel
    (fun m _ hm => hR m (by omega)) (fun m _ hm => hC m (by omega))
    (fun m _ hm => hN m (by omega)) (by simpa using ⟨h1, h2⟩) hf
  simpa using h

/-- Witness for C7: in `stallEnv` (stalled from the second observation on,
clock past the 0.5 s grace) the loop breaks at index 1, and the break
implies the grace-and-stall condition. -/
theorem C7_witness :
    execLoopAux defaultCalibration 0 oldStallGrace stallEnv 3 0 = some (.stalledBreak, 1)
    ∧ ∃ m, 1 = m + 1 ∧ oldStallGrace < stallEnv.time m
        ∧ _stalled (stallEnv.status (m+1)) = true := by
  have hloop : execLoopAux defaultCalibration 0 oldStallGrace stallEnv 3 0 =
      some (.stalledBreak, 1) :=
    (C7_stall_break defaultCalibration 0 oldStallGrace stallEnv 3 0 1).2.1
      (by
        intro m hm
        interval_cases m
        simp only [stallEnv, farStatus, _reached_goal, _get_position, countsToPosition,
          defaultCalibration, clip, decide_eq_false_iff_not]
        norm_num [min_def, max_def]
        rw [abs_of_nonneg (by norm_num)]
        norm_num)
      (fun m _ => rfl)
      (fun m hm => absurd hm (Nat.not_lt_zero m))
      (by norm_num [oldStallGrace, stallEnv])
      rfl
      (by norm_num)
  exact ⟨hloop,
    (C7_stall_break defaultCalibration 0 oldStallGrace stallEnv 3 0 1).1 hloop⟩

/-- Claim C8 counterexample: `_execute_no_delay_cb` reports a succeeded
outcome without the goal being reached and without any stall early-exit:
on a ready status whose position register reads 0 (position 17/200 m) with
target 0 m, it succeeds immediately with `reached_goal = false` and
`stalled = false`. -/
theorem C8_counterexample :
    (execute_no_delay_cb defaultCalibration farStatus ⟨0, 0, 0⟩ false).2.1 =
      GoalOutcome.succeeded ⟨17/200, false, false⟩ := by
  norm_num [execute_no_delay_cb, noDelayMain, _ready, farStatus, zeroGOBJ, _get_position,
    _stalled, _reached_goal, countsToPosition, clip, defaultCalibration, min_def, max_def]
  rw [abs_of_nonneg (by norm_num)]
  norm_num

/-- Claim C8 (amended): for the two polling interfaces
(`_simple_gripper_action_cb` and `_execute_cb`) a succeeded outcome arises
only from a `reached` or `stalledBreak` loop exit, and a `canceled` loop
exit always yields a preempted (non-success) outcome; the no-delay
interface, by contrast, reports succeeded unconditionally after issuing a
single command, regardless of `reached_goal`. -/
theorem C8_amended (c : Calibration) (goalPos : ℚ) (g : Goal) (st : CModelStatus)
    (activationOk p0 : Bool) (env : Env) (fuel : ℕ) (r : GripperResult)
    (cmds : List CModelCommand) :
    (simpleMain c goalPos p0 env fuel [] = some (.succeeded r, cmds) →
      ∃ k, execLoopAux c (simpleTarget c goalPos) simpleStallGrace env fuel 0 =
          some (.reached, k)
        ∨ execLoopAux c (simpleTarget c goalPos) simpleStallGrace env fuel 0 =
          some (.stalledBreak, k))
    ∧ (execute_cb c st g activationOk p0 env fuel = some (.succeeded r, cmds) →
      ∃ k, execLoopAux c (clip g.position c.min_gap c.max_gap) oldStallGrace env fuel 0 =
          some (.reached, k)
        ∨ execLoopAux c (clip g.position c.min_gap c.max_gap) oldStallGrace env fuel 0 =
          some (.stalledBreak, k))
    ∧ (∀ k, execLoopAux c (simpleTarget c goalPos) simpleStallGrace env fuel 0 =
          some (.canceled, k) →
        (simpleMain c goalPos false env fuel []).map Prod.fst = some .preempted)
    ∧ (∀ k, execLoopAux c (clip g.position c.min_gap c.max_gap) oldStallGrace env fuel 0 =
          some (.canceled, k) → activationOk = true →
        (execute_cb c st g activationOk false env fuel).map Prod.fst = some .preempted)
    ∧ (_ready st = true →
        (execute_no_delay_cb c st g false).2.1 =
          .succeeded { position := _get_position c (zeroGOBJ st)
                       stalled := _stalled (zeroGOBJ st)
                       reached_goal := _reached_goal c (zeroGOBJ st)
                         (clip g.position c.min_gap c.max_gap) }) := by
  refine ⟨?_, ?_, ?_, ?_, ?_⟩
  · intro h
    cases p0 with
    | true => simp [simpleMain] at h
    | false =>
      cases hE : execLoopAux c (simpleTarget c goalPos) simpleStallGrace env fuel 0 with
      | none => simp [simpleMain, hE] at h
      | some val =>
        obtain ⟨e, k⟩ := val
        cases e with
        | reached => exact ⟨k, Or.inl rfl⟩
        | canceled => simp [simpleMain, hE] at h
        | stalledBreak => exact ⟨k, Or.inr rfl⟩
  · intro h
    by_cases hA : _ready st = false ∧ activationOk = false
    · simp [execute_cb, hA] at h
    · cases p0 with
      | true => simp [execute_cb, hA] at h
      | false =>
        cases hE : execLoopAux c (clip g.position c.min_gap c.max_gap) oldStallGrace env fuel 0 with
        | none => simp [execute_cb, hA, hE] at h
        | some val =>
          obtain ⟨e, k⟩ := val
          cases e with
          | reached => exact ⟨k, Or.inl rfl⟩
          | canceled => simp [execute_cb, hA, hE] at h
          | stalledBreak => exact ⟨k, Or.inr rfl⟩
  · intro k hE
    simp [simpleMain, hE]
  · intro k hE hA
    simp [execute_cb, hA, hE]
  · intro h
    simp [execute_no_delay_cb, h, noDelayMain]

/-- Witness for C8: a run reaching the goal immediately (both polling
interfaces), a run cancelled at the first tick (both), and the no-delay
interface succeeding on a ready device. -/
theorem C8_witness :
    (∃ k, execLoopAux defaultCalibration (simpleTarget defaultCalibration 0)
          simpleStallGrace reachEnv 1 0 = some (.reached, k)
        ∨ execLoopAux defaultCalibration (simpleTarget defaultCalibration 0)
          simpleStallGrace reachEnv 1 0 = some (.stalledBreak, k))
    ∧ (∃ k, execLoopAux defaultCalibration
          (clip (17/200) defaultCalibration.min_gap defaultCalibration.max_gap)
          oldStallGrace reachEnv 1 0 = some (.reached, k)
        ∨ execLoopAux defaultCalibration
          (clip (17/200) defaultCalibration.min_gap defaultCalibration.max_gap)
          oldStallGrace reachEnv 1 0 = some (.stalledBreak, k))
    ∧ (simpleMain defaultCalibration 1 false cancelEnv 1 []).map Prod.fst = some .preempted
    ∧ (execute_cb defaultCalibration farStatus ⟨0, 0, 0⟩ true false cancelEnv 1).map
        Prod.fst = some .preempted
    ∧ (execute_no_delay_cb defaultCalibration farStatus ⟨0, 0, 0⟩ false).2.1 =
        .succeeded { position := _get_position defaultCalibration (zeroGOBJ farStatus)
                     stalled := _stalled (zeroGOBJ farStatus)
                     reached_goal := _reached_goal defaultCalibration (zeroGOBJ farStatus)
                       (clip (0 : ℚ) defaultCalibration.min_gap defaultCalibration.max_gap) } := by
  have hreach : _reached_goal defaultCalibration farStatus
      (simpleTarget defaultCalibration 0) = true := by
    simp only [_reached_goal, simpleTarget, farStatus, _get_position, countsToPosition,
      defaultCalibration, clip, decide_eq_true_eq]
    norm_num [min_def, max_def]
  have hfar : _reached_goal defaultCalibration farStatus
      (simpleTarget defaultCalibration 1) = false := by
    simp only [_reached_goal, simpleTarget, farStatus, _get_position, countsToPosition,
      defaultCalibration, clip, decide_eq_false_iff_not]
    norm_num [min_def, max_def]
    rw [abs_of_nonneg (by norm_num)]
    norm_num
  have hfar0 : _reached_goal defaultCalibration farStatus
      (clip (0 : ℚ) defaultCalibration.min_gap defaultCalibration.max_gap) = false := by
    simp only [_reached_goal, farStatus, _get_position, countsToPosition,
      defaultCalibration, clip, decide_eq_false_iff_not]
    norm_num [min_def, max_def]
    rw [abs_of_nonneg (by norm_num)]
    norm_num
  have hreach2 : _reached_goal defaultCalibration farStatus
      (clip (17/200) defaultCalibration.min_gap defaultCalibration.max_gap) = true := by
    simp only [_reached_goal, farStatus, _get_position, countsToPosition,
      defaultCalibration, clip, decide_eq_true_eq]
    norm_num [min_def, max_def]
  have h1 : simpleMain defaultCalibration 0 false reachEnv 1 [] =
      some (.succeeded (resultAt defaultCalibration (simpleTarget defaultCalibration 0)
        reachEnv 0), []) := by
    simp [simpleMain, execLoopAux, reachEnv, hreach]
  have h2 : execute_cb defaultCalibration farStatus ⟨17/200, 0, 0⟩ true false reachEnv 1 =
      some (.succeeded (resultAt defaultCalibration
        (clip (17/200) defaultCalibration.min_gap defaultCalibration.max_gap)
        reachEnv 0), []) := by
    simp [execute_cb, execLoopAux, reachEnv, hreach2]
  have h3 : execLoopAux defaultCalibration (simpleTarget defaultCalibration 1)
      simpleStallGrace cancelEnv 1 0 = some (.canceled, 0) := by
    simp [execLoopAux, cancelEnv, hfar]
  have h4 : execLoopAux defaultCalibration
      (clip (0 : ℚ) defaultCalibration.min_gap defaultCalibration.max_gap)
      oldStallGrace cancelEnv 1 0 = some (.canceled, 0) := by
    simp [execLoopAux, cancelEnv, hfar0]
  exact ⟨(C8_amended defaultCalibration 0 ⟨17/200, 0, 0⟩ farStatus true false reachEnv 1
            (resultAt defaultCalibration (simpleTarget defaultCalibration 0) reachEnv 0)
            []).1 h1,
         (C8_amended defaultCalibration 0 ⟨17/200, 0, 0⟩ farStatus true false reachEnv 1
            (resultAt defaultCalibration
              (clip (17/200) defaultCalibration.min_gap defaultCalibration.max_gap)
              reachEnv 0) []).2.1 h2,
         (C8_amended defaultCalibration 1 ⟨17/200, 0, 0⟩ farStatus true false cancelEnv 1
            ⟨0, false, false⟩ []).2.2.1 0 h3,
         (C8_amended defaultCalibration 1 ⟨0, 0, 0⟩ farStatus true false cancelEnv 1
            ⟨0, false, false⟩ []).2.2.2.1 0 h4 rfl,
         (C8_amended defaultCalibration 1 ⟨0, 0, 0⟩ farStatus true false cancelEnv 1
            ⟨0, false, false⟩ []).2.2.2.2 rfl⟩

/-- Claim C9 counterexample: when the constructor's activation attempt
fails, `__init__` returns before `self._server.start()`, so no action
server is started and no future goal attempt can be served (serving
requires `initStarted = true`, which needs the activation to succeed). -/
theorem C9_counterexample :
    initStarted true false false = false ∧ initStarted true false true = true :=
  ⟨rfl, rfl⟩

/-- Claim C9 (amended): inside the goal callbacks an activation failure is
reported as a non-success outcome and never crashes the loop — the old
interface performs a bare return with no terminal call, the no-delay and
simple interfaces preempt — and the servers keep running; at startup,
however, an activation failure causes `__init__` to return without
starting the action servers, so subsequent goals are not served. -/
theorem C9_amended (c : Calibration) (st : CModelStatus) (g : Goal) (goalPos : ℚ)
    (p0 : Bool) (env : Env) (fuel : ℕ) (h : _ready st = false) :
    execute_cb c st g false p0 env fuel = some (.noResult, [])
    ∧ (execute_no_delay_cb c st g p0).2.1 = .preempted
    ∧ simple_gripper_action_cb c st goalPos p0 env fuel =
        some (.preempted, [activationCommand])
    ∧ initStarted true false false = false := by
  refine ⟨?_, ?_, ?_, rfl⟩
  · simp [execute_cb, h]
  · simp [execute_no_delay_cb, h, pyTruthy, silentActivateResult]
  · simp [simple_gripper_action_cb, h, pyTruthy, silentActivateResult]

/-- Witness for C9 at a default (never-activated) status. -/
theorem C9_witness :
    execute_cb defaultCalibration {} ⟨0, 0, 0⟩ false false reachEnv 1 = some (.noResult, [])
    ∧ (execute_no_delay_cb defaultCalibration {} ⟨0, 0, 0⟩ false).2.1 = .preempted
    ∧ simple_gripper_action_cb defaultCalibration {} 0 false reachEnv 1 =
        some (.preempted, [activationCommand])
    ∧ initStarted true false false = false :=
  C9_amended defaultCalibration {} ⟨0, 0, 0⟩ 0 false reachEnv 1 rfl

/-- Claim C10: `_silent_activate` publishes the activation command but
returns `None` (falsy), so whenever a goal arrives on the no-delay or
simple interface while the device is not ready, the guard
`if not self._silent_activate()` is taken: the goal is immediately
preempted and the only command published is the activation command — no
motion command for that goal is ever issued. -/
theorem C10_silent_activate (c : Calibration) (st : CModelStatus) (g : Goal)
    (goalPos : ℚ) (p0 : Bool) (env : Env) (fuel : ℕ) (h : _ready st = false) :
    silentActivateResult = none
    ∧ pyTruthy silentActivateResult = false
    ∧ (execute_no_delay_cb c st g p0).2.1 = .preempted
    ∧ (execute_no_delay_cb c st g p0).2.2 = [activationCommand]
    ∧ simple_gripper_action_cb c st goalPos p0 env fuel =
        some (.preempted, [activationCommand]) := by
  refine ⟨rfl, rfl, ?_, ?_, ?_⟩ <;>
    simp [execute_no_delay_cb, simple_gripper_action_cb, h, pyTruthy, silentActivateResult]

/-- Witness for C10 at a default (never-activated) status. -/
theorem C10_witness :
    silentActivateResult = none
    ∧ pyTruthy silentActivateResult = false
    ∧ (execute_no_delay_cb defaultCalibration {} ⟨1/50, 0, 0⟩ false).2.1 = .preempted
    ∧ (execute_no_delay_cb defaultCalibration {} ⟨1/50, 0, 0⟩ false).2.2 = [activationCommand]
    ∧ simple_gripper_action_cb defaultCalibration {} (1/50) false reachEnv 1 =
        some (.preempted, [activationCommand]) :=
  C10_silent_activate defaultCalibration {} ⟨1/50, 0, 0⟩ (1/50) false reachEnv 1 rfl

end Robotiq
